import Mathlib

/-!
Shallow embedding of the request/pagination/response-normalization pipeline of
`cbw_api_toolbox/cbw_api.py` (class `CBWApi`), together with the route constants
of `cbw_api_toolbox/__routes__.py`.

Modelling conventions:
  * Python values flowing out of the public operations are captured by `PyVal`
    (None, booleans, parsed JSON records, lists of records, raw responses).
  * Python exceptions that can escape a call are captured by `PyErr`; an
    operation is a function into `Except PyErr PyVal`.
  * The network is an oracle `Net : Nat -> TransportResult`, indexed by the
    number of `_request` invocations performed so far; every operation threads
    a request counter, so "how many network calls were made" is the difference
    of the counter.  `requests.request` either yields a `Response`, raises one
    of the exception classes caught by `_request` (`connectivityError`), or
    raises `MissingSchema` (`missingSchema`).
  * A `Response` carries the fields of the `requests` response object that the
    source reads: `status_code`, `text`, the outcome of
    `json.loads(text, object_hook=...)` (`jsonLoads`, since raw text cannot be
    parsed inside the model), and the `page` query parameter of the `next`
    link relation when one is present (`links_next`).
  * The `while` loop of `_get_pages` is given a fuel parameter; exhausting the
    fuel yields the pseudo-error `fuelExhausted`, and theorems supply enough
    fuel for the traces they consider.
-/

set_option autoImplicit false
set_option linter.unusedVariables false

namespace CbwApi

/-- Parsed JSON values: the structure `json.loads` produces (with the
`namedtuple` object hook, an object is a tuple iterable over its field
values). -/
inductive Json where
  | null : Json
  | bool (b : Bool) : Json
  | num (n : Int) : Json
  | str (s : String) : Json
  | arr (elems : List Json) : Json
  | obj (fields : List (String × Json)) : Json

/-- Outcome of `json.loads(response.text, object_hook=...)` on a response
body: a parsed value, a `json.JSONDecodeError` (malformed JSON), or a
`TypeError` (non-string input). -/
inductive ParseResult where
  | ok (j : Json) : ParseResult
  | decodeError : ParseResult
  | typeError : ParseResult

/-- Python exceptions that can escape a call in the model. `fuelExhausted` is
not a Python exception: it signals that the pagination loop did not terminate
within the supplied fuel. -/
inductive PyErr where
  | jsonDecodeError : PyErr
  | unboundLocal (name : String) : PyErr
  | attributeError (attr : String) : PyErr
  | typeErr : PyErr
  | keyError (key : String) : PyErr
  | systemExit (code : Int) : PyErr
  | fuelExhausted : PyErr

/-- The fields of a `requests` response object that `cbw_api.py` reads. -/
structure Response where
  status_code : Nat
  text : String
  jsonLoads : ParseResult
  links_next : Option String

/-- Result of one `requests.request` call: a response, an exception from the
tuple caught by `_request` (`ConnectionError`, `ProxyError`, `SSLError`,
`NewConnectionError`, `RetryError`, `InvalidHeader`, `MaxRetryError`), or a
`MissingSchema` exception. -/
inductive TransportResult where
  | response (r : Response) : TransportResult
  | connectivityError : TransportResult
  | missingSchema : TransportResult

/-- The network oracle: result of the `n`-th `requests.request` call. -/
def Net : Type := Nat → TransportResult

/-- A Python dict with string keys, as used for query/body params. -/
def Dict : Type := List (String × Json)

/-- Python values returned by the public operations. -/
inductive PyVal where
  | pyNone : PyVal
  | pyBool (b : Bool) : PyVal
  | pyJson (j : Json) : PyVal
  | pyList (elems : List Json) : PyVal
  | pyResp (r : Response) : PyVal

/-- Python truthiness of a JSON value. -/
def truthy : Json → Bool
  | Json.null => false
  | Json.bool b => b
  | Json.num n => n ≠ 0
  | Json.str s => ¬ s.isEmpty
  | Json.arr elems => ¬ elems.isEmpty
  | Json.obj fields => ¬ fields.isEmpty

/-- `d[k]` as an option (`d.get(k)` in Python). -/
def dictGet (d : Dict) (k : String) : Option Json :=
  match d with
  | [] => none
  | (k', v) :: rest => if k' = k then some v else dictGet rest k

/-- `k in d`. -/
def hasKey (d : Dict) (k : String) : Bool :=
  match d with
  | [] => false
  | (k', _) :: rest => k' = k || hasKey rest k

/-- `d[k] = v`: replace the binding in place, or append a new one. -/
def setKey (d : Dict) (k : String) (v : Json) : Dict :=
  match d with
  | [] => [(k, v)]
  | (k', v') :: rest => if k' = k then (k, v) :: rest else (k', v') :: setKey rest k v

/-- `d[k]`, raising `KeyError` when the key is absent. -/
def dictGetE (d : Dict) (k : String) : Except PyErr Json :=
  match dictGet d k with
  | some v => Except.ok v
  | none => Except.error (PyErr.keyError k)

/-- Python truthiness of a `d.get(k)` result. -/
def truthyOpt : Option Json → Bool
  | none => false
  | some j => truthy j

/-- Python `a or b` over two `d.get` results. -/
def pyOrOpt (a b : Option Json) : Option Json :=
  if truthyOpt a then a else b

/-- A `d.get` result as the JSON value stored in a dict literal (`None` when
absent). -/
def jsonOfOpt : Option Json → Json
  | none => Json.null
  | some j => j

/-- Route constants from `__routes__.py`. -/
def ROUTE_SERVERS : String := "/api/v3/servers"

def ROUTE_GROUPS : String := "/api/v3/groups"

def ROUTE_HOSTS : String := "/api/v3/hosts"

def ROUTE_REMOTE_ACCESSES : String := "/api/v3/remote_accesses"

/-- `cbw_api.py` imports `ROUTE_IMPORTER` from `__routes__.py`; the route file
in this snapshot names that route `ROUTE_AIRGAPPED_SCRIPTS` with this value
(the docstring of `upload_importer_results` gives the same path). -/
def ROUTE_IMPORTER : String := "/api/v2/cbw_scans/scripts"

/-- `CBWApi._build_route`: concatenate the api url with the '/'-joined path
payloads. -/
def build_route (api_url : String) (params : List String) : String :=
  api_url ++ String.intercalate "/" params

/-- `CBWApi._cbw_parse`: `json.loads(response.text, object_hook=...)` under
`try/except TypeError`.  A malformed body raises `json.JSONDecodeError`, which
is not a `TypeError` and escapes; on a `TypeError` the error is logged and the
function then executes `return result` with `result` never bound, raising
`UnboundLocalError`.  Called with `response = None` (a swallowed transport
failure), `response.text` raises `AttributeError`. -/
def cbw_parse (response : Option Response) : Except PyErr Json :=
  match response with
  | none => Except.error (PyErr.attributeError "text")
  | some r =>
    match r.jsonLoads with
    | ParseResult.ok j => Except.ok j
    | ParseResult.decodeError => Except.error PyErr.jsonDecodeError
    | ParseResult.typeError => Except.error (PyErr.unboundLocal "result")

/-- `CBWApi._request`: issue one `requests.request` call.  The caught
exception tuple is logged and the function falls through, returning `None`;
`MissingSchema` is logged and the process exits with `sys.exit(-1)`.  The
counter records how many `_request` invocations have been performed. -/
def request (net : Net) (verb : String) (payloads : List String)
    (body_params : Option Json) (cnt : Nat) :
    Except PyErr (Option Response) × Nat :=
  match net cnt with
  | TransportResult.response r => (Except.ok (some r), cnt + 1)
  | TransportResult.connectivityError => (Except.ok none, cnt + 1)
  | TransportResult.missingSchema =>
      (Except.error (PyErr.systemExit (-1)), cnt + 1)

/-- `response_list.extend(self._cbw_parse(response))`: iterating the parsed
value.  A list iterates its elements, a namedtuple its field values, a string
its characters; other scalars raise `TypeError`. -/
def extendItems : Json → Except PyErr (List Json)
  | Json.arr elems => Except.ok elems
  | Json.obj fields => Except.ok (fields.map (fun f => f.2))
  | Json.str s => Except.ok (s.toList.map (fun c => Json.str (String.mk [c])))
  | _ => Except.error PyErr.typeErr

/-- The `while 'next' in response.links` loop of `CBWApi._get_pages`: set
`params['page']` from the next link, refetch, and extend the collected list
with the parsed body.  The source performs no status-code check inside this
loop.  A `None` response (swallowed transport failure) reaches
`_cbw_parse`, whose `response.text` raises `AttributeError`. -/
def get_pages_loop (net : Net) (verb : String) (route : List String)
    (fuel : Nat) (resp : Response) (response_list : List Json)
    (params : Dict) (cnt : Nat) :
    Except PyErr (List Json) × Dict × Nat :=
  match fuel with
  | 0 => (Except.error PyErr.fuelExhausted, params, cnt)
  | Nat.succ fuel =>
    match resp.links_next with
    | none => (Except.ok response_list, params, cnt)
    | some tok =>
      let params1 := setKey params "page" (Json.str tok)
      match request net verb route (some (Json.obj params1)) cnt with
      | (Except.error e, cnt1) => (Except.error e, params1, cnt1)
      | (Except.ok none, cnt1) =>
          (Except.error (PyErr.attributeError "text"), params1, cnt1)
      | (Except.ok (some r1), cnt1) =>
        match cbw_parse (some r1) with
        | Except.error e => (Except.error e, params1, cnt1)
        | Except.ok j =>
          match extendItems j with
          | Except.error e => (Except.error e, params1, cnt1)
          | Except.ok items =>
              get_pages_loop net verb route fuel r1
                (response_list ++ items) params1 cnt1

/-- `CBWApi._get_pages`: default `per_page` to 100, fetch a single page
verbatim when the caller supplied `page`, otherwise fetch the first page and
follow `next` links.  Only the explicit-page fetch and the first page have a
status-code check (non-200 logs the body and returns `None`).  The returned
`Dict` is the params dict after the call (the source mutates the caller's
dict in place). -/
def get_pages (net : Net) (fuel : Nat) (verb : String) (route : List String)
    (params0 : Option Dict) (cnt : Nat) :
    Except PyErr PyVal × Dict × Nat :=
  let paramsA : Dict :=
    match params0 with
    | none => setKey [] "per_page" (Json.num 100)
    | some ps => ps
  let params : Dict :=
    if hasKey paramsA "per_page" then paramsA
    else setKey paramsA "per_page" (Json.num 100)
  if hasKey params "page" then
    match request net verb route (some (Json.obj params)) cnt with
    | (Except.error e, cnt1) => (Except.error e, params, cnt1)
    | (Except.ok none, cnt1) =>
        (Except.error (PyErr.attributeError "status_code"), params, cnt1)
    | (Except.ok (some r), cnt1) =>
      if r.status_code ≠ 200 then (Except.ok PyVal.pyNone, params, cnt1)
      else
        match cbw_parse (some r) with
        | Except.error e => (Except.error e, params, cnt1)
        | Except.ok j => (Except.ok (PyVal.pyJson j), params, cnt1)
  else
    match request net verb route (some (Json.obj params)) cnt with
    | (Except.error e, cnt1) => (Except.error e, params, cnt1)
    | (Except.ok none, cnt1) =>
        (Except.error (PyErr.attributeError "status_code"), params, cnt1)
    | (Except.ok (some r), cnt1) =>
      if r.status_code ≠ 200 then (Except.ok PyVal.pyNone, params, cnt1)
      else
        match cbw_parse (some r) with
        | Except.error e => (Except.error e, params, cnt1)
        | Except.ok j =>
          match extendItems j with
          | Except.error e => (Except.error e, params, cnt1)
          | Except.ok items =>
            match get_pages_loop net verb route fuel r items params cnt1 with
            | (Except.error e, ps, c) => (Except.error e, ps, c)
            | (Except.ok xs, ps, c) => (Except.ok (PyVal.pyList xs), ps, c)

/-- `CBWApi.verif_response` (static): `True` when the status code is within
200..299, `False` otherwise (logging the body either way).  Invoked on the
`None` left by a swallowed transport failure, `response.status_code` raises
`AttributeError`. -/
def verif_response (response : Option Response) : Except PyErr Bool :=
  match response with
  | none => Except.error (PyErr.attributeError "status_code")
  | some r =>
    if 200 ≤ r.status_code ∧ r.status_code ≤ 299 then Except.ok true
    else Except.ok false

/-- `CBWApi.servers`: paginated GET of the servers collection. -/
def servers (net : Net) (fuel : Nat) (params : Option Dict) (cnt : Nat) :
    Except PyErr PyVal × Dict × Nat :=
  get_pages net fuel "GET" [ROUTE_SERVERS] params cnt

/-- `CBWApi.server`: GET one server; non-200 logs the body and returns
`None`, otherwise the parsed body is returned. -/
def server (net : Net) (server_id : String) (cnt : Nat) :
    Except PyErr PyVal × Nat :=
  match request net "GET" [ROUTE_SERVERS, server_id] none cnt with
  | (Except.error e, c) => (Except.error e, c)
  | (Except.ok none, c) => (Except.error (PyErr.attributeError "status_code"), c)
  | (Except.ok (some r), c) =>
    if r.status_code ≠ 200 then (Except.ok PyVal.pyNone, c)
    else
      match cbw_parse (some r) with
      | Except.error e => (Except.error e, c)
      | Except.ok j => (Except.ok (PyVal.pyJson j), c)

/-- `CBWApi.create_group`: POST a group; the expected success code is 201,
any other status logs the body and returns `None`. -/
def create_group (net : Net) (params : Option Json) (cnt : Nat) :
    Except PyErr PyVal × Nat :=
  match request net "POST" [ROUTE_GROUPS] params cnt with
  | (Except.error e, c) => (Except.error e, c)
  | (Except.ok none, c) => (Except.error (PyErr.attributeError "status_code"), c)
  | (Except.ok (some r), c) =>
    if r.status_code ≠ 201 then (Except.ok PyVal.pyNone, c)
    else
      match cbw_parse (some r) with
      | Except.error e => (Except.error e, c)
      | Except.ok j => (Except.ok (PyVal.pyJson j), c)

/-- `CBWApi.upload_importer_results`: POST scanning-script results; the
expected success code is 204 and the raw response object is returned. -/
def upload_importer_results (net : Net) (content : Option Json) (cnt : Nat) :
    Except PyErr PyVal × Nat :=
  match request net "POST" [ROUTE_IMPORTER] content cnt with
  | (Except.error e, c) => (Except.error e, c)
  | (Except.ok none, c) => (Except.error (PyErr.attributeError "status_code"), c)
  | (Except.ok (some r), c) =>
    if r.status_code ≠ 204 then (Except.ok PyVal.pyNone, c)
    else (Except.ok (PyVal.pyResp r), c)

/-- `CBWApi.delete_server`: a falsy `server_id` (`None` or the empty string)
short-circuits before any request and returns `False`; otherwise the DELETE
is issued and checked with `verif_response`. -/
def delete_server (net : Net) (server_id : String) (cnt : Nat) :
    Except PyErr PyVal × Nat :=
  if ¬ server_id.isEmpty then
    match request net "DELETE" [ROUTE_SERVERS, server_id] none cnt with
    | (Except.error e, c) => (Except.error e, c)
    | (Except.ok resp, c) =>
      match verif_response resp with
      | Except.error e => (Except.error e, c)
      | Except.ok b => (Except.ok (PyVal.pyBool b), c)
  else (Except.ok (PyVal.pyBool false), cnt)

/-- `CBWApi.delete_group`: issues the DELETE unconditionally (no identifier
check); non-200 logs the body and returns `None`. -/
def delete_group (net : Net) (group_id : String) (cnt : Nat) :
    Except PyErr PyVal × Nat :=
  match request net "DELETE" [ROUTE_GROUPS, group_id] none cnt with
  | (Except.error e, c) => (Except.error e, c)
  | (Except.ok none, c) => (Except.error (PyErr.attributeError "status_code"), c)
  | (Except.ok (some r), c) =>
    if r.status_code ≠ 200 then (Except.ok PyVal.pyNone, c)
    else
      match cbw_parse (some r) with
      | Except.error e => (Except.error e, c)
      | Except.ok j => (Except.ok (PyVal.pyJson j), c)

/-- `CBWApi.delete_host`: issues the DELETE unconditionally (no identifier
check); non-200 logs the body and returns `None`. -/
def delete_host (net : Net) (host_id : String) (cnt : Nat) :
    Except PyErr PyVal × Nat :=
  match request net "DELETE" [ROUTE_HOSTS, host_id] none cnt with
  | (Except.error e, c) => (Except.error e, c)
  | (Except.ok none, c) => (Except.error (PyErr.attributeError "status_code"), c)
  | (Except.ok (some r), c) =>
    if r.status_code ≠ 200 then (Except.ok PyVal.pyNone, c)
    else
      match cbw_parse (some r) with
      | Except.error e => (Except.error e, c)
      | Except.ok j => (Except.ok (PyVal.pyJson j), c)

/-- The reduced body dict `create_remote_access` builds when no
`credential_id` is supplied: the mandatory lookups `info["type"]`,
`info["address"]`, `info["port"]`, `info["login"]`, `info["node_id"]` raise
`KeyError` when absent (in dict-literal evaluation order); the remaining
entries use `info.get` with `or`-chaining or a default. -/
def remote_access_body (d : Dict) : Except PyErr Json := do
  let ty ← dictGetE d "type"
  let addr ← dictGetE d "address"
  let port ← dictGetE d "port"
  let login ← dictGetE d "login"
  let password := pyOrOpt (dictGet d "auth_password") (dictGet d "password")
  let key := pyOrOpt (dictGet d "priv_password") (dictGet d "key")
  let node_id ← dictGetE d "node_id"
  let server_groups := (dictGet d "server_groups").getD (Json.str "")
  Except.ok (Json.obj
    [("type", ty), ("address", addr), ("port", port), ("login", login),
     ("password", jsonOfOpt password), ("key", jsonOfOpt key),
     ("node_id", node_id), ("server_groups", server_groups)])

/-- `CBWApi.create_remote_access`: when `info` is truthy, POST it (or the
reduced body) and log `response.text`; the subsequent
`if self.verif_response(response)` sits outside the `if info:` block, so a
falsy `info` reaches it with `response` never bound, raising
`UnboundLocalError` after zero network calls.  On a 2xx response the success
log reads `info["address"]` and the parsed body is returned; otherwise
`False` is returned. -/
def create_remote_access (net : Net) (info : Option Dict) (cnt : Nat) :
    Except PyErr PyVal × Nat :=
  match info with
  | none => (Except.error (PyErr.unboundLocal "response"), cnt)
  | some d =>
    if d.isEmpty then (Except.error (PyErr.unboundLocal "response"), cnt)
    else
      let bodyE : Except PyErr Json :=
        if truthyOpt (dictGet d "credential_id") then Except.ok (Json.obj d)
        else remote_access_body d
      match bodyE with
      | Except.error e => (Except.error e, cnt)
      | Except.ok body =>
        match request net "POST" [ROUTE_REMOTE_ACCESSES] (some body) cnt with
        | (Except.error e, c) => (Except.error e, c)
        | (Except.ok none, c) => (Except.error (PyErr.attributeError "text"), c)
        | (Except.ok (some r), c) =>
          if 200 ≤ r.status_code ∧ r.status_code ≤ 299 then
            match dictGetE d "address" with
            | Except.error e => (Except.error e, c)
            | Except.ok _ =>
              match cbw_parse (some r) with
              | Except.error e => (Except.error e, c)
              | Except.ok j => (Except.ok (PyVal.pyJson j), c)
          else (Except.ok (PyVal.pyBool false), c)

/-- Items of a page whose body parsed to a JSON array (and `[]` otherwise;
the hypotheses of the theorems below restrict attention to array bodies). -/
def pageItems (r : Response) : List Json :=
  match r.jsonLoads with
  | ParseResult.ok (Json.arr elems) => elems
  | _ => []

/-- Whether a response body parses to a JSON array. -/
def parsesToArr (r : Response) : Bool :=
  match r.jsonLoads with
  | ParseResult.ok (Json.arr _) => true
  | _ => false

/-- A well-formed run of follow-on pages: the current response names a `next`
page exactly when pages remain, and every remaining page's body parses to a
JSON array. -/
def chainOk : Response → List Response → Bool
  | r, [] => r.links_next.isNone
  | r, r1 :: rest => r.links_next.isSome && parsesToArr r1 && chainOk r1 rest

/-- A network oracle serving a fixed trace of responses in order. -/
def netOfPages (pages : List Response) : Net :=
  fun n =>
    match pages[n]? with
    | some r => TransportResult.response r
    | none => TransportResult.connectivityError

/-- A network oracle answering every request the same way. -/
def constNet (t : TransportResult) : Net := fun _ => t

/-- A concrete 200 page with items `[1, 2]` and a next link to page 2. -/
def pageA : Response :=
  ⟨200, "[1, 2]", ParseResult.ok (Json.arr [Json.num 1, Json.num 2]), some "2"⟩

/-- A concrete 200 page with item `[3]` and no next link. -/
def pageB : Response :=
  ⟨200, "[3]", ParseResult.ok (Json.arr [Json.num 3]), none⟩

/-- A concrete 500 page whose JSON error body still parses (to an object with
one `error` field), with no next link. -/
def errPage : Response :=
  ⟨500, "error boom", ParseResult.ok (Json.obj [("error", Json.str "boom")]),
    none⟩

/-- A concrete 422 response with a parseable JSON error body. -/
def resp422 : Response :=
  ⟨422, "error invalid",
    ParseResult.ok (Json.obj [("error", Json.str "invalid")]), none⟩

/-- A concrete 200 response whose body is malformed JSON. -/
def respBadJson : Response :=
  ⟨200, "not json", ParseResult.decodeError, none⟩

/-- A concrete 200 response whose body made `json.loads` raise `TypeError`. -/
def respTypeErr : Response :=
  ⟨200, "", ParseResult.typeError, none⟩

theorem parsesToArr_jsonLoads (r : Response) (h : parsesToArr r = true) :
    r.jsonLoads = ParseResult.ok (Json.arr (pageItems r)) := by
  unfold parsesToArr at h
  unfold pageItems
  cases hj : r.jsonLoads with
  | ok j => rw [hj] at h; cases j <;> simp_all
  | decodeError => rw [hj] at h; simp_all
  | typeError => rw [hj] at h; simp_all

theorem hasKey_setKey_of_ne (d : Dict) (k k' : String) (v : Json)
    (hne : k ≠ k') : hasKey (setKey d k v) k' = hasKey d k' := by
  induction d with
  | nil => simp [setKey, hasKey, hne]
  | cons p rest ih =>
    obtain ⟨k0, v0⟩ := p
    by_cases h : k0 = k
    · subst h; simp [setKey, hasKey, hne]
    · simp [setKey, h, hasKey, ih]

theorem dictGet_setKey_of_ne (d : Dict) (k k' : String) (v : Json)
    (hne : k ≠ k') : dictGet (setKey d k v) k' = dictGet d k' := by
  induction d with
  | nil => simp [setKey, dictGet, hne]
  | cons p rest ih =>
    obtain ⟨k0, v0⟩ := p
    by_cases h : k0 = k
    · subst h; simp [setKey, dictGet, hne]
    · simp [setKey, h, dictGet, ih]

theorem get_pages_loop_frame (net : Net) (verb : String) (route : List String) :
    ∀ (fuel : Nat) (r : Response) (acc : List Json) (params : Dict)
      (cnt : Nat) (k : String), k ≠ "page" →
      dictGet (get_pages_loop net verb route fuel r acc params cnt).2.1 k
        = dictGet params k := by
  intro fuel
  induction fuel with
  | zero => intro r acc params cnt k hk; rfl
  | succ fuel ih =>
    intro r acc params cnt k hk
    have hset := dictGet_setKey_of_ne params "page" k
      (Json.str ((r.links_next).getD "")) (fun h => hk h.symm)
    cases hnext : r.links_next with
    | none => simp [get_pages_loop, hnext]
    | some tok =>
      have hset := dictGet_setKey_of_ne params "page" k
        (Json.str tok) (fun h => hk h.symm)
      simp only [get_pages_loop, hnext, request]
      cases hn : net cnt with
      | connectivityError => simp [hn, hset]
      | missingSchema => simp [hn, hset]
      | response r1 =>
        simp only [hn, cbw_parse]
        cases hp : r1.jsonLoads with
        | decodeError => simp [hp, hset]
        | typeError => simp [hp, hset]
        | ok j =>
          simp only [hp]
          cases j with
          | null => simp [extendItems, hset]
          | bool b => simp [extendItems, hset]
          | num n => simp [extendItems, hset]
          | str s => simp [extendItems, ih, hset, hk]
          | arr elems => simp [extendItems, ih, hset, hk]
          | obj fields => simp [extendItems, ih, hset, hk]

theorem get_pages_loop_spec (net : Net) (verb : String) (route : List String) :
    ∀ (rest : List Response) (r : Response) (acc : List Json) (params : Dict)
      (cnt fuel : Nat),
      chainOk r rest = true →
      (∀ i (h : i < rest.length),
        net (cnt + i) = TransportResult.response (rest.get ⟨i, h⟩)) →
      rest.length < fuel →
      (get_pages_loop net verb route fuel r acc params cnt).1
          = Except.ok (acc ++ rest.flatMap pageItems)
        ∧ (get_pages_loop net verb route fuel r acc params cnt).2.2
          = cnt + rest.length := by
  intro rest
  induction rest with
  | nil =>
    intro r acc params cnt fuel hchain hnet hfuel
    obtain ⟨fuel, rfl⟩ : ∃ f, fuel = f + 1 := ⟨fuel - 1, by omega⟩
    unfold chainOk at hchain
    have hnone : r.links_next = none := Option.isNone_iff_eq_none.mp hchain
    simp [get_pages_loop, hnone]
  | cons r1 rest ih =>
    intro r acc params cnt fuel hchain hnet hfuel
    obtain ⟨fuel, rfl⟩ : ∃ f, fuel = f + 1 := ⟨fuel - 1, by omega⟩
    unfold chainOk at hchain
    simp only [Bool.and_eq_true] at hchain
    obtain ⟨⟨hsome, harr⟩, hrest⟩ := hchain
    obtain ⟨tok, htok⟩ := Option.isSome_iff_exists.mp hsome
    have hn0 : net cnt = TransportResult.response r1 := by
      have := hnet 0 (by simp)
      simpa using this
    have harr' := parsesToArr_jsonLoads r1 harr
    have hihnet : ∀ i (h : i < rest.length),
        net (cnt + 1 + i) = TransportResult.response (rest.get ⟨i, h⟩) := by
      intro i h
      have := hnet (i + 1) (by simpa using Nat.succ_lt_succ h)
      have heq : cnt + (i + 1) = cnt + 1 + i := by omega
      rw [heq] at this
      simpa using this
    have hih := ih r1 (acc ++ pageItems r1)
      (setKey params "page" (Json.str tok)) (cnt + 1) fuel hrest hihnet
      (by simpa using Nat.lt_of_succ_lt_succ hfuel)
    simp only [get_pages_loop, htok, request, hn0, cbw_parse, harr',
      extendItems]
    constructor
    · rw [hih.1]; simp [List.flatMap_cons, List.append_assoc]
    · rw [hih.2]; simp [List.length_cons]; omega

theorem netOfPages_zero (p : Response) (rest : List Response) :
    netOfPages (p :: rest) 0 = TransportResult.response p := by
  simp [netOfPages]

theorem netOfPages_shift (p : Response) (rest : List Response) :
    ∀ i (h : i < rest.length),
      netOfPages (p :: rest) (1 + i)
        = TransportResult.response (rest.get ⟨i, h⟩) := by
  intro i h
  have h1 : 1 + i = i + 1 := by omega
  rw [h1]
  simp [netOfPages, List.getElem?_eq_getElem h]

/-- C4: a multi-page collection fetch over a successful chain of pages
returns the in-order concatenation of the pages' items (so its length is the
sum of the per-page item counts, items of page k precede those of page k+1,
and each page's internal order is preserved), making one network call per
page. -/
theorem C4_pager_concatenates_pages (p : Response) (rest : List Response)
    (fuel : Nat)
    (hstat : ∀ r ∈ p :: rest, r.status_code = 200)
    (hp : parsesToArr p = true)
    (hchain : chainOk p rest = true)
    (hfuel : rest.length < fuel) :
    (servers (netOfPages (p :: rest)) fuel none 0).1
        = Except.ok (PyVal.pyList ((p :: rest).flatMap pageItems))
      ∧ (servers (netOfPages (p :: rest)) fuel none 0).2.2
        = (p :: rest).length := by
  have hn0 := netOfPages_zero p rest
  have hs : p.status_code = 200 := hstat p (by simp)
  have hpj := parsesToArr_jsonLoads p hp
  obtain ⟨h1, h2⟩ := get_pages_loop_spec (netOfPages (p :: rest)) "GET"
    [ROUTE_SERVERS] rest p (pageItems p) [("per_page", Json.num 100)] 1 fuel
    hchain (netOfPages_shift p rest) hfuel
  rcases hval : get_pages_loop (netOfPages (p :: rest)) "GET" [ROUTE_SERVERS]
      fuel p (pageItems p) [("per_page", Json.num 100)] 1 with ⟨x, ps, c⟩
  rw [hval] at h1 h2
  simp at h1 h2
  subst h1
  subst h2
  constructor
  · simp only [servers, get_pages, request, hn0, hs, cbw_parse, hpj,
      extendItems]
    simp [setKey, hasKey, hval]
  · simp only [servers, get_pages, request, hn0, hs, cbw_parse, hpj,
      extendItems]
    simp [setKey, hasKey, hval]
    omega

theorem hasKey_page_after_default (params : Dict) :
    hasKey (if hasKey params "per_page" then params
      else setKey params "per_page" (Json.num 100)) "page"
      = hasKey params "page" := by
  by_cases hpp : hasKey params "per_page" = true
  · simp [hpp]
  · simp [hpp, hasKey_setKey_of_ne params "per_page" "page" _ (by decide)]

/-- C4 witness: a concrete two-page trace (items `[1, 2]` then `[3]`)
returns the five-field concatenation `[1, 2, 3]` with two network calls. -/
theorem C4_pager_concatenates_pages_witness :
    (servers (netOfPages [pageA, pageB]) 2 none 0).1
        = Except.ok (PyVal.pyList [Json.num 1, Json.num 2, Json.num 3])
      ∧ (servers (netOfPages [pageA, pageB]) 2 none 0).2.2 = 2 := by
  have h := C4_pager_concatenates_pages pageA [pageB] 2
    (by decide) (by decide) (by decide) (by decide)
  simpa [pageA, pageB, pageItems] using h

/-- C1 counterexample: with the second page returning status 500, the pager
does not abort with the Failure sentinel `None`; it parses the error body
and returns a successful list that even contains the error field value. -/
theorem C1_second_page_failure_not_aborted :
    (servers (netOfPages [pageA, errPage]) 2 none 0).1
        = Except.ok (PyVal.pyList [Json.num 1, Json.num 2, Json.str "boom"])
      ∧ (servers (netOfPages [pageA, errPage]) 2 none 0).1
        ≠ Except.ok PyVal.pyNone := by
  refine ⟨rfl, ?_⟩
  rw [show (servers (netOfPages [pageA, errPage]) 2 none 0).1
      = Except.ok (PyVal.pyList [Json.num 1, Json.num 2, Json.str "boom"])
    from rfl]
  simp

/-- C1 amended: only the first page's fetch (and an explicit-page fetch) is
status-checked: a non-200 response on the first page makes the pager abort
immediately, after exactly one request, returning the Failure sentinel
`None`; pages fetched by the cursor-following loop are not status-checked. -/
theorem C1_first_page_failure_aborts (net : Net) (fuel : Nat) (params : Dict)
    (r : Response) (hpage : hasKey params "page" = false)
    (hnet : net 0 = TransportResult.response r)
    (hst : r.status_code ≠ 200) :
    (get_pages net fuel "GET" [ROUTE_SERVERS] (some params) 0).1
        = Except.ok PyVal.pyNone
      ∧ (get_pages net fuel "GET" [ROUTE_SERVERS] (some params) 0).2.2 = 1 := by
  have hpage' := hasKey_page_after_default params
  rw [hpage] at hpage'
  simp [get_pages, hpage', request, hnet, hst]

/-- C1 amended witness at a concrete 422 first page. -/
theorem C1_first_page_failure_aborts_witness :
    (get_pages (constNet (TransportResult.response resp422)) 3 "GET"
        [ROUTE_SERVERS] (some []) 0).1 = Except.ok PyVal.pyNone
      ∧ (get_pages (constNet (TransportResult.response resp422)) 3 "GET"
        [ROUTE_SERVERS] (some []) 0).2.2 = 1 :=
  C1_first_page_failure_aborts (constNet (TransportResult.response resp422))
    3 [] resp422 rfl rfl (by decide)

/-- C2: at the failing input (status 200 with a malformed JSON body) the
parse failure is not normalized to a Failure outcome: `json.JSONDecodeError`
escapes `_cbw_parse` (only `TypeError` is caught) and propagates out of the
public operation; and even on the caught `TypeError` path, `return result`
raises `UnboundLocalError`, so no path yields the Decode Failure the spec
describes. -/
theorem C2_decode_failure_raises :
    cbw_parse (some respBadJson) = Except.error PyErr.jsonDecodeError
    ∧ (server (constNet (TransportResult.response respBadJson)) "5" 0).1
        = Except.error PyErr.jsonDecodeError
    ∧ cbw_parse (some respTypeErr)
        = Except.error (PyErr.unboundLocal "result") :=
  ⟨rfl, rfl, rfl⟩

/-- C3 counterexample: on a connectivity failure the operation does not
resolve to an Outcome: both the paginated fetch and the single-item GET
raise an `AttributeError` (dereferencing the `None` left by `_request`). -/
theorem C3_connectivity_attribute_error :
    (servers (constNet TransportResult.connectivityError) 3 none 0).1
        = Except.error (PyErr.attributeError "status_code")
      ∧ (server (constNet TransportResult.connectivityError) "1" 0).1
        = Except.error (PyErr.attributeError "status_code") :=
  ⟨rfl, rfl⟩

/-- C3 amended: a transport failure from the caught exception tuple is
logged inside `_request`, which returns the absence value `None` without
re-raising, so no transport exception escapes; but the public operation then
dereferences that `None` and an `AttributeError` escapes instead of an
Outcome being returned. -/
theorem C3_transport_swallowed_then_attribute_error (net : Net) (cnt : Nat)
    (verb : String) (payloads : List String) (body : Option Json)
    (hnet : net cnt = TransportResult.connectivityError) :
    request net verb payloads body cnt = (Except.ok none, cnt + 1)
    ∧ ∀ id : String, server net id cnt
        = (Except.error (PyErr.attributeError "status_code"), cnt + 1) := by
  constructor
  · simp [request, hnet]
  · intro id; simp [server, request, hnet]

/-- C3 amended witness at a concrete always-failing network. -/
theorem C3_transport_swallowed_then_attribute_error_witness :
    request (constNet TransportResult.connectivityError) "GET"
        [ROUTE_SERVERS] none 0 = (Except.ok none, 1)
    ∧ server (constNet TransportResult.connectivityError) "9" 0
        = (Except.error (PyErr.attributeError "status_code"), 1) := by
  have h := C3_transport_swallowed_then_attribute_error
    (constNet TransportResult.connectivityError) 0 "GET" [ROUTE_SERVERS]
    none rfl
  exact ⟨h.1, h.2 "9"⟩

/-- C5: when the caller supplies an explicit `page` entry in the query
params, exactly one network call is made (regardless of the response), and
when that page's response is a 200 whose body parses, the parsed result is
returned verbatim with no cursor-following. -/
theorem C5_explicit_page_single_fetch (net : Net) (fuel : Nat)
    (params : Dict) (cnt : Nat) (hpage : hasKey params "page" = true) :
    (get_pages net fuel "GET" [ROUTE_SERVERS] (some params) cnt).2.2 = cnt + 1
    ∧ ∀ (r : Response) (j : Json), net cnt = TransportResult.response r →
        r.status_code = 200 → r.jsonLoads = ParseResult.ok j →
        (get_pages net fuel "GET" [ROUTE_SERVERS] (some params) cnt).1
          = Except.ok (PyVal.pyJson j) := by
  have hpage' := hasKey_page_after_default params
  rw [hpage] at hpage'
  constructor
  · simp only [get_pages, hpage', if_true, request]
    cases hn : net cnt with
    | response r =>
      by_cases hst : r.status_code ≠ 200
      · simp [hn, hst]
      · cases hp : r.jsonLoads <;> simp [hn, cbw_parse, hp, hst]
    | connectivityError => simp [hn]
    | missingSchema => simp [hn]
  · intro r j hr hst hj
    simp [get_pages, hpage', request, hr, cbw_parse, hj, hst]

/-- C5 witness: an explicit `page=2` fetch of a concrete 200 page makes one
call and returns the parsed page verbatim. -/
theorem C5_explicit_page_single_fetch_witness :
    (get_pages (constNet (TransportResult.response pageB)) 4 "GET"
        [ROUTE_SERVERS] (some [("page", Json.num 2)]) 0).2.2 = 1
    ∧ (get_pages (constNet (TransportResult.response pageB)) 4 "GET"
        [ROUTE_SERVERS] (some [("page", Json.num 2)]) 0).1
        = Except.ok (PyVal.pyJson (Json.arr [Json.num 3])) := by
  have h := C5_explicit_page_single_fetch
    (constNet (TransportResult.response pageB)) 4 [("page", Json.num 2)] 0
    (by decide)
  exact ⟨h.1, h.2 pageB (Json.arr [Json.num 3]) rfl (by decide) rfl⟩

/-- C6: a status code outside the declared expected set never yields a
Success outcome: `verif_response` (expected 200..299) returns `False`,
`server` (expected 200), `create_group` (expected 201) and
`upload_importer_results` (expected 204) log the raw body and return the
Failure sentinel `None` for any other status. -/
theorem C6_unexpected_status_never_success (net : Net) (r : Response)
    (hnet : net 0 = TransportResult.response r) :
    (¬ (200 ≤ r.status_code ∧ r.status_code ≤ 299) →
      verif_response (some r) = Except.ok false)
    ∧ (r.status_code ≠ 200 →
      ∀ id : String, (server net id 0).1 = Except.ok PyVal.pyNone)
    ∧ (r.status_code ≠ 201 →
      ∀ b : Option Json, (create_group net b 0).1 = Except.ok PyVal.pyNone)
    ∧ (r.status_code ≠ 204 →
      ∀ b : Option Json,
        (upload_importer_results net b 0).1 = Except.ok PyVal.pyNone) := by
  refine ⟨?_, ?_, ?_, ?_⟩
  · intro h; simp [verif_response, h]
  · intro h id; simp [server, request, hnet, h]
  · intro h b; simp [create_group, request, hnet, h]
  · intro h b; simp [upload_importer_results, request, hnet, h]

/-- C6 witness at a concrete 422 response. -/
theorem C6_unexpected_status_never_success_witness :
    verif_response (some resp422) = Except.ok false
    ∧ (server (constNet (TransportResult.response resp422)) "7" 0).1
        = Except.ok PyVal.pyNone
    ∧ (create_group (constNet (TransportResult.response resp422)) none 0).1
        = Except.ok PyVal.pyNone
    ∧ (upload_importer_results (constNet (TransportResult.response resp422))
        none 0).1 = Except.ok PyVal.pyNone := by
  obtain ⟨h1, h2, h3, h4⟩ := C6_unexpected_status_never_success
    (constNet (TransportResult.response resp422)) resp422 rfl
  exact ⟨h1 (by decide), h2 (by decide) "7", h3 (by decide) none,
    h4 (by decide) none⟩

/-- C7 counterexample: `delete_group` and `delete_host` with an empty
identifier do not short-circuit: each performs one network call. -/
theorem C7_delete_group_host_no_short_circuit :
    (delete_group (constNet (TransportResult.response resp422)) "" 0).2 = 1
    ∧ (delete_host (constNet (TransportResult.response resp422)) "" 0).2
        = 1 :=
  ⟨rfl, rfl⟩

/-- C7 amended: `delete_server` short-circuits on a falsy identifier with
zero network calls and an immediate `False` (so do `delete_agent`,
`delete_remote_access` and `delete_compliance_rule`, which have the same
form), but `delete_group` and `delete_host` issue the DELETE request
unconditionally, identifier or not. -/
theorem C7_only_some_deletes_short_circuit (net : Net) (cnt : Nat)
    (id : String) (hid : id.isEmpty = true) :
    delete_server net id cnt = (Except.ok (PyVal.pyBool false), cnt)
    ∧ (delete_group net id cnt).2 = cnt + 1
    ∧ (delete_host net id cnt).2 = cnt + 1 := by
  refine ⟨?_, ?_, ?_⟩
  · simp [delete_server, hid]
  · unfold delete_group request
    cases hn : net cnt with
    | response r =>
      by_cases hst : r.status_code ≠ 200
      · simp [hst]
      · cases hp : r.jsonLoads <;> simp [cbw_parse, hp, hst]
    | connectivityError => simp
    | missingSchema => simp
  · unfold delete_host request
    cases hn : net cnt with
    | response r =>
      by_cases hst : r.status_code ≠ 200
      · simp [hst]
      · cases hp : r.jsonLoads <;> simp [cbw_parse, hp, hst]
    | connectivityError => simp
    | missingSchema => simp

/-- C7 amended witness at the empty identifier. -/
theorem C7_only_some_deletes_short_circuit_witness :
    delete_server (constNet (TransportResult.response resp422)) "" 0
        = (Except.ok (PyVal.pyBool false), 0)
    ∧ (delete_group (constNet (TransportResult.response resp422)) "" 0).2 = 1
    ∧ (delete_host (constNet (TransportResult.response resp422)) "" 0).2
        = 1 :=
  C7_only_some_deletes_short_circuit
    (constNet (TransportResult.response resp422)) 0 "" rfl

/-- C8: a `MissingSchema` on the first request attempt (malformed base URL,
missing scheme) is logged and the process is terminated via `sys.exit(-1)`:
the SystemExit with non-zero code propagates and no Outcome is returned,
both for a single-item GET and for a paginated fetch. -/
theorem C8_missing_schema_exits (net : Net)
    (hnet : net 0 = TransportResult.missingSchema) :
    (∀ id : String,
      server net id 0 = (Except.error (PyErr.systemExit (-1)), 1))
    ∧ ∀ (fuel : Nat) (ps : Option Dict),
        (servers net fuel ps 0).1 = Except.error (PyErr.systemExit (-1)) := by
  constructor
  · intro id; simp [server, request, hnet]
  · intro fuel ps
    rcases ps with _ | ps
    · simp [servers, get_pages, request, hnet, setKey, hasKey]
    · by_cases hpage : hasKey (if hasKey ps "per_page" then ps
          else setKey ps "per_page" (Json.num 100)) "page" = true <;>
        simp [servers, get_pages, request, hnet, hpage]

/-- C8 witness at a concrete network raising `MissingSchema`. -/
theorem C8_missing_schema_exits_witness :
    server (constNet TransportResult.missingSchema) "3" 0
        = (Except.error (PyErr.systemExit (-1)), 1)
    ∧ (servers (constNet TransportResult.missingSchema) 3 none 0).1
        = Except.error (PyErr.systemExit (-1)) := by
  have h := C8_missing_schema_exits (constNet TransportResult.missingSchema)
    rfl
  exact ⟨h.1 "3", h.2 3 none⟩

/-- C9 counterexample: fetching a collection with an (initially empty)
caller-supplied params dict hands back a params dict with `per_page`
written into it: the caller's mapping is not unchanged. -/
theorem C9_params_mutated :
    (servers (netOfPages [pageB]) 2 (some []) 0).2.1
        = [("per_page", Json.num 100)]
      ∧ ([("per_page", Json.num 100)] : Dict) ≠ ([] : Dict) :=
  ⟨rfl, by simp⟩

/-- C9 amended: the pipeline rewrites only the `per_page` key (defaulting it
to 100) and the `page` key (while following next links) of the caller's
params dict; every other key keeps its original value. -/
theorem C9_params_frame (net : Net) (fuel : Nat) (verb : String)
    (route : List String) (ps : Dict) (cnt : Nat) (k : String)
    (h1 : k ≠ "per_page") (h2 : k ≠ "page") :
    dictGet (get_pages net fuel verb route (some ps) cnt).2.1 k
      = dictGet ps k := by
  have hbase : dictGet (if hasKey ps "per_page" then ps
      else setKey ps "per_page" (Json.num 100)) k = dictGet ps k := by
    by_cases hpp : hasKey ps "per_page" = true
    · simp [hpp]
    · simp [hpp, dictGet_setKey_of_ne ps "per_page" k _ (fun h => h1 h.symm)]
  by_cases hpage : hasKey (if hasKey ps "per_page" then ps
      else setKey ps "per_page" (Json.num 100)) "page" = true
  · simp only [get_pages, hpage, if_true, request]
    cases hn : net cnt with
    | response r =>
      by_cases hst : r.status_code ≠ 200
      · simp [hn, hst, hbase]
      · cases hp : r.jsonLoads <;> simp [hn, cbw_parse, hp, hst, hbase]
    | connectivityError => simp [hn, hbase]
    | missingSchema => simp [hn, hbase]
  · simp only [get_pages, hpage, if_false, Bool.not_eq_true, request]
    cases hn : net cnt with
    | response r =>
      by_cases hst : r.status_code ≠ 200
      · simp [hn, hst, hbase]
      · cases hp : r.jsonLoads with
        | decodeError => simp [hn, cbw_parse, hp, hst, hbase]
        | typeError => simp [hn, cbw_parse, hp, hst, hbase]
        | ok j =>
          cases j with
          | null => simp [hn, cbw_parse, hp, hst, extendItems, hbase]
          | bool b => simp [hn, cbw_parse, hp, hst, extendItems, hbase]
          | num n => simp [hn, cbw_parse, hp, hst, extendItems, hbase]
          | str sv =>
            simp only [hn, cbw_parse, hp, hst, extendItems]
            rcases hL : get_pages_loop net verb route fuel r
                (sv.toList.map (fun c => Json.str (String.mk [c])))
                (if hasKey ps "per_page" then ps
                  else setKey ps "per_page" (Json.num 100)) (cnt + 1)
              with ⟨x, psL, cL⟩
            have hfr := get_pages_loop_frame net verb route fuel r
              (sv.toList.map (fun c => Json.str (String.mk [c])))
              (if hasKey ps "per_page" then ps
                else setKey ps "per_page" (Json.num 100)) (cnt + 1) k h2
            rw [hL] at hfr
            cases x <;> simp_all
          | arr elems =>
            simp only [hn, cbw_parse, hp, hst, extendItems]
            rcases hL : get_pages_loop net verb route fuel r elems
                (if hasKey ps "per_page" then ps
                  else setKey ps "per_page" (Json.num 100)) (cnt + 1)
              with ⟨x, psL, cL⟩
            have hfr := get_pages_loop_frame net verb route fuel r elems
              (if hasKey ps "per_page" then ps
                else setKey ps "per_page" (Json.num 100)) (cnt + 1) k h2
            rw [hL] at hfr
            cases x <;> simp_all
          | obj fields =>
            simp only [hn, cbw_parse, hp, hst, extendItems]
            rcases hL : get_pages_loop net verb route fuel r
                (fields.map (fun f => f.2))
                (if hasKey ps "per_page" then ps
                  else setKey ps "per_page" (Json.num 100)) (cnt + 1)
              with ⟨x, psL, cL⟩
            have hfr := get_pages_loop_frame net verb route fuel r
              (fields.map (fun f => f.2))
              (if hasKey ps "per_page" then ps
                else setKey ps "per_page" (Json.num 100)) (cnt + 1) k h2
            rw [hL] at hfr
            cases x <;> simp_all
    | connectivityError => simp [hn, hbase]
    | missingSchema => simp [hn, hbase]

/-- C9 amended witness: a caller-supplied `filter` key is untouched by a
two-page fetch. -/
theorem C9_params_frame_witness :
    dictGet (get_pages (netOfPages [pageA, pageB]) 2 "GET" [ROUTE_SERVERS]
        (some [("filter", Json.str "x")]) 0).2.1 "filter"
      = dictGet [("filter", Json.str "x")] "filter" :=
  C9_params_frame (netOfPages [pageA, pageB]) 2 "GET" [ROUTE_SERVERS]
    [("filter", Json.str "x")] 0 "filter" (by decide) (by decide)

/-- C10: a falsy `info` (absent, or an empty dict) skips the request block,
so zero network calls are made; the final `if self.verif_response(response)`
then reads the never-bound local `response`, raising `UnboundLocalError`
instead of returning an Outcome. -/
theorem C10_create_remote_access_unbound (net : Net) (cnt : Nat)
    (info : Option Dict) (h : info = none ∨ info = some ([] : Dict)) :
    create_remote_access net info cnt
      = (Except.error (PyErr.unboundLocal "response"), cnt) := by
  rcases h with h | h <;> subst h <;> simp [create_remote_access]

/-- C10 witness at the absent `info`. -/
theorem C10_create_remote_access_unbound_witness :
    create_remote_access (constNet TransportResult.connectivityError) none 5
      = (Except.error (PyErr.unboundLocal "response"), 5) :=
  C10_create_remote_access_unbound
    (constNet TransportResult.connectivityError) 5 none (Or.inl rfl)

end CbwApi
